import Mathlib

/-!
Verification development for the dig_in call-lifecycle webhook engine.

The definitions below are a shallow embedding of the TypeScript sources
`src/app/api/webhooks/retell/route.ts` (the revision that combines the
voicemail/dial-failure/human-answered classifiers with the corrective
`call_analyzed` handling) and `src/lib/extractAnswers.ts` (the revision with
datetime normalization).  JavaScript `undefined`/`null` is modelled as
`Option`, JS string truthiness as `strTruthy`, JS `Array.indexOf` (which
returns -1 on a miss) as `jsIndexOf`.  Database rows are records threaded
explicitly; `updated_at` wall-clock timestamps are not modelled.  External
collaborators (the Retell signature verifier, the OpenAI chat call, and the
date-fns-tz timezone database) are taken as parameters of the model.
-/

namespace DigIn

/-- JS string truthiness for an optional string: `undefined`, `null` and `""`
are falsy. -/
def strTruthy : Option String → Bool
  | some s => if s = "" then false else true
  | none => false

/-- `needle` occurs as a contiguous sublist of `hay`. -/
def charsContain (needle : List Char) : List Char → Bool
  | [] => needle.isEmpty
  | c :: rest => needle.isPrefixOf (c :: rest) || charsContain needle rest

/-- JS `hay.includes(needle)`: substring containment. -/
def strContains (hay needle : String) : Bool :=
  charsContain needle.data hay.data

/-- JS `s.startsWith(pre)`. -/
def strStartsWith (s pre : String) : Bool :=
  pre.data.isPrefixOf s.data

/-- JS `s.toLowerCase()` (the phrases involved are ASCII).  Defined over the
character list so that it evaluates by kernel reduction, unlike the
iterator-based core `String.toLower`. -/
def strToLower (s : String) : String :=
  ⟨s.data.map Char.toLower⟩

/-- JS `s.trim()`: strip leading and trailing whitespace.  Defined over the
character list so that it evaluates by kernel reduction. -/
def strTrim (s : String) : String :=
  ⟨((s.data.dropWhile Char.isWhitespace).reverse.dropWhile Char.isWhitespace).reverse⟩

/-- JS `s.slice(0, n)`: the first `n` characters. -/
def strSlice (s : String) (n : Nat) : String :=
  ⟨s.data.take n⟩

/-- JS `s.endsWith(c)` for a one-character suffix: the last character equals
`c`. -/
def endsWithChar (s : String) (c : Char) : Bool :=
  match s.data.getLast? with
  | some c' => c' = c
  | none => false

/-- JS `Array.prototype.indexOf` semantics: `-1` when the element is absent
(`List.indexOf` in Lean instead returns the length, so it is not a faithful
model). -/
def jsIndexOf (xs : List String) (s : String) : Int :=
  match xs with
  | [] => -1
  | x :: rest =>
    if x = s then 0
    else
      let r := jsIndexOf rest s
      if r = -1 then -1 else r + 1

/-- `call_analysis` sub-object of the webhook payload. -/
structure CallAnalysis where
  in_voicemail : Option Bool
  call_successful : Option Bool
deriving DecidableEq, Repr

/-- One entry of `transcript_object`.  Word-level float timestamps are not
modelled: no verified claim depends on them and the format fallback when
they are absent is the one embedded in `formatTranscriptJson`. -/
structure Utterance where
  role : Option String
  speaker : Option String
  content : Option String
deriving DecidableEq, Repr

/-- The `call` object of the webhook payload envelope. -/
structure CallPayload where
  call_id : Option String
  transcript : Option String
  transcript_object : Option (List Utterance)
  disconnection_reason : Option String
  duration_ms : Option Nat
  call_analysis : Option CallAnalysis
deriving DecidableEq, Repr

/-- `const STATUS_ORDER = ["queued", "calling", "connected", "completed", "failed"]`. -/
def STATUS_ORDER : List String :=
  ["queued", "calling", "connected", "completed", "failed"]

/-- `const VOICEMAIL_PHRASES = [...]` (case-insensitive transcript heuristics). -/
def VOICEMAIL_PHRASES : List String :=
  ["forwarded to voicemail", "record your message", "at the tone", "not available"]

/-- `canProgressStatus`: only progress forward, except `failed` is always
allowed. -/
def canProgressStatus (currentStatus newStatus : String) : Bool :=
  if newStatus = "failed" then true
  else decide (jsIndexOf STATUS_ORDER currentStatus < jsIndexOf STATUS_ORDER newStatus)

/-- `detectVoicemailFromAnalysis`: primary check is the explicit
`call_analysis.in_voicemail === true` flag, secondary check matches the
lowercased transcript against `VOICEMAIL_PHRASES`. -/
def detectVoicemailFromAnalysis (callAnalysis : Option CallAnalysis)
    (transcript : Option String) : Bool :=
  if callAnalysis.bind (fun a => a.in_voicemail) = some true then true
  else if strTruthy transcript then
    VOICEMAIL_PHRASES.any (fun phrase => strContains (strToLower (transcript.getD "")) phrase)
  else false

/-- `isDialFailureDisconnection`: `"voicemail_reached"` exactly, or any reason
starting with `"dial_"`. -/
def isDialFailureDisconnection (disconnectionReason : Option String) : Bool :=
  match disconnectionReason with
  | none => false
  | some r =>
    if r = "" then false
    else if r = "voicemail_reached" then true
    else strStartsWith r "dial_"

/-- `detectHumanAnswered`: transcript contains `Agent:`/`User:` dialogue with
more than 50 characters, or the structured turn list has more than one entry
with non-empty content, or the duration exceeds 5000 ms. -/
def detectHumanAnswered (transcript : Option String)
    (transcriptObject : Option (List Utterance)) (durationMs : Option Nat) : Bool :=
  let fromTranscript :=
    match transcript with
    | some t =>
      if t = "" then false
      else
        let hasAgent := strContains (strToLower t) "agent:"
        let hasUser := strContains (strToLower t) "user:"
        let hasRealContent := decide (t.length > 50)
        hasAgent && hasUser && hasRealContent
    | none => false
  let fromObject :=
    match transcriptObject with
    | some entries =>
      if entries.length > 1 then
        decide ((entries.filter (fun e => 0 < (strTrim (e.content.getD "")).length)).length > 1)
      else false
    | none => false
  let fromDuration :=
    match durationMs with
    | some d => decide (d > 5000)
    | none => false
  fromTranscript || fromObject || fromDuration

/-! ### Calendar arithmetic and ISO datetime handling

Model of the datetime machinery used by `normalizeDatetimeToLocalIso` in
`src/lib/extractAnswers.ts`: JS `new Date(str).getTime()` on ISO strings with
a `Z`/offset suffix, and `toZonedTime` + `format(..., "yyyy-MM-dd'T'HH:mm:ss")`
from date-fns-tz.  The IANA timezone database consulted by `toZonedTime` is
external to the repository and is passed in as a `tzOffsetMinutes` function
(minutes east of UTC for a zone name at a given epoch second). -/

/-- Numeric value of a decimal digit character. -/
def digitVal (c : Char) : Nat := c.toNat - 48

/-- The decimal digit character for `n % 10`. -/
def digitChar (n : Nat) : Char :=
  match n % 10 with
  | 0 => '0' | 1 => '1' | 2 => '2' | 3 => '3' | 4 => '4'
  | 5 => '5' | 6 => '6' | 7 => '7' | 8 => '8' | _ => '9'

/-- Gregorian leap-year rule. -/
def isLeap (y : Nat) : Bool :=
  y % 4 = 0 && (y % 100 ≠ 0 || y % 400 = 0)

/-- Days in a Gregorian month. -/
def daysInMonth (y m : Nat) : Nat :=
  if m = 2 then (if isLeap y then 29 else 28)
  else if m = 4 ∨ m = 6 ∨ m = 9 ∨ m = 11 then 30
  else 31

/-- Days since the Unix epoch of a civil date (Howard Hinnant's
`days_from_civil`; all divisions are on nonnegative values here since the
parser only produces four-digit years). -/
def daysFromCivil (y m d : Nat) : Int :=
  let yi : Int := if m ≤ 2 then (y : Int) - 1 else (y : Int)
  let era : Int := yi.ediv 400
  let yoe : Int := yi - era * 400
  let mp : Int := ((m : Int) + 9).emod 12
  let doy : Int := (153 * mp + 2).ediv 5 + (d : Int) - 1
  let doe : Int := yoe * 365 + yoe.ediv 4 - yoe.ediv 100 + doy
  era * 146097 + doe - 719468

/-- Civil date `(year, month, day)` from days since the Unix epoch (Howard
Hinnant's `civil_from_days`, with Euclidean division which coincides with
floor division for the positive divisors used). -/
def civilFromDays (z : Int) : Int × Int × Int :=
  let z' := z + 719468
  let era := z'.ediv 146097
  let doe := z' - era * 146097
  let yoe := (doe - doe.ediv 1460 + doe.ediv 36524 - doe.ediv 146096).ediv 365
  let y := yoe + era * 400
  let doy := doe - (365 * yoe + yoe.ediv 4 - yoe.ediv 100)
  let mp := (5 * doy + 2).ediv 153
  let d := doy - (153 * mp + 2).ediv 5 + 1
  let m := mp + (if mp < 10 then 3 else -9)
  (if m ≤ 2 then y + 1 else y, m, d)

/-- One token of a character pattern: a decimal digit or a literal. -/
inductive PatTok
  | dig
  | lit (c : Char)
deriving DecidableEq, Repr

/-- Match a character list against a token pattern (anchored at both ends). -/
def matchToks : List PatTok → List Char → Bool
  | [], [] => true
  | PatTok.dig :: ps, c :: cs => c.isDigit && matchToks ps cs
  | PatTok.lit a :: ps, c :: cs => (if c = a then true else false) && matchToks ps cs
  | _, _ => false

/-- Pattern of `/^\d{4}-\d{2}-\d{2}T\d{2}:\d{2}$/` (local ISO up to minutes). -/
def minuteLocalIsoToks : List PatTok :=
  [PatTok.dig, PatTok.dig, PatTok.dig, PatTok.dig, PatTok.lit '-',
   PatTok.dig, PatTok.dig, PatTok.lit '-', PatTok.dig, PatTok.dig,
   PatTok.lit 'T', PatTok.dig, PatTok.dig, PatTok.lit ':', PatTok.dig, PatTok.dig]

/-- Pattern of `/^\d{4}-\d{2}-\d{2}T\d{2}:\d{2}:\d{2}$/` (full local ISO). -/
def fullLocalIsoToks : List PatTok :=
  minuteLocalIsoToks ++ [PatTok.lit ':', PatTok.dig, PatTok.dig]

/-- `/^\d{4}-\d{2}-\d{2}T\d{2}:\d{2}:\d{2}$/.test s`. -/
def isFullLocalIsoPattern (s : String) : Bool :=
  matchToks fullLocalIsoToks s.data

/-- `/^\d{4}-\d{2}-\d{2}T\d{2}:\d{2}$/.test s`. -/
def isMinuteLocalIsoPattern (s : String) : Bool :=
  matchToks minuteLocalIsoToks s.data

/-- `/[+-]\d{2}:\d{2}$/.test s`: the string ends with an explicit UTC offset. -/
def offsetSuffixTest (s : String) : Bool :=
  let cs := s.data
  let n := cs.length
  match cs[n-6]?, cs[n-5]?, cs[n-4]?, cs[n-3]?, cs[n-2]?, cs[n-1]? with
  | some c1, some d1, some d2, some c2, some d3, some d4 =>
    decide (6 ≤ n) && (if c1 = '+' ∨ c1 = '-' then true else false) &&
    d1.isDigit && d2.isDigit && (if c2 = ':' then true else false) &&
    d3.isDigit && d4.isDigit
  | _, _, _, _, _, _ => false

/-- Optional fractional-second suffix accepted by the JS date parser:
nothing, or a dot followed by at least one digit. -/
def fracOk : List Char → Bool
  | [] => true
  | '.' :: ds => decide (0 < ds.length) && ds.all Char.isDigit
  | _ => false

/-- Parse the date-time part (suffix already stripped) and return epoch
seconds, applying `offsetSeconds`.  Validates field ranges the way JS
`new Date` does (an out-of-range component yields `Invalid Date`). -/
def parseInstantCore (cs : List Char) (offsetSeconds : Int) : Option Int :=
  match cs with
  | y1 :: y2 :: y3 :: y4 :: '-' :: m1 :: m2 :: '-' :: d1 :: d2 :: 'T' ::
    h1 :: h2 :: ':' :: n1 :: n2 :: rest =>
    if y1.isDigit ∧ y2.isDigit ∧ y3.isDigit ∧ y4.isDigit ∧ m1.isDigit ∧ m2.isDigit ∧
       d1.isDigit ∧ d2.isDigit ∧ h1.isDigit ∧ h2.isDigit ∧ n1.isDigit ∧ n2.isDigit then
      let secPart : Option Nat :=
        match rest with
        | [] => some 0
        | ':' :: s1 :: s2 :: rest2 =>
          if s1.isDigit ∧ s2.isDigit ∧ fracOk rest2 = true then
            some (10 * digitVal s1 + digitVal s2)
          else none
        | _ => none
      match secPart with
      | none => none
      | some sec =>
        let y := 1000 * digitVal y1 + 100 * digitVal y2 + 10 * digitVal y3 + digitVal y4
        let mo := 10 * digitVal m1 + digitVal m2
        let da := 10 * digitVal d1 + digitVal d2
        let hh := 10 * digitVal h1 + digitVal h2
        let mi := 10 * digitVal n1 + digitVal n2
        if 1 ≤ mo ∧ mo ≤ 12 ∧ 1 ≤ da ∧ da ≤ daysInMonth y mo ∧
           hh ≤ 23 ∧ mi ≤ 59 ∧ sec ≤ 59 then
          some (daysFromCivil y mo da * 86400 +
                ((hh * 3600 + mi * 60 + sec : Nat) : Int) - offsetSeconds)
        else none
    else none
  | _ => none

/-- JS `new Date(s).getTime() / 1000` for an ISO string carrying a `Z` or
`±HH:MM` suffix (the only strings the source feeds to `new Date`). -/
def parseInstant (s : String) : Option Int :=
  let cs := s.data
  if endsWithChar s 'Z' then parseInstantCore cs.dropLast 0
  else
    match cs[cs.length-6]?, cs[cs.length-5]?, cs[cs.length-4]?,
          cs[cs.length-3]?, cs[cs.length-2]?, cs[cs.length-1]? with
    | some c1, some o1, some o2, some c2, some o3, some o4 =>
      if (c1 = '+' ∨ c1 = '-') ∧ o1.isDigit ∧ o2.isDigit ∧ c2 = ':' ∧
         o3.isDigit ∧ o4.isDigit then
        let oh := 10 * digitVal o1 + digitVal o2
        let om := 10 * digitVal o3 + digitVal o4
        if oh ≤ 23 ∧ om ≤ 59 then
          let off : Int := ((oh * 3600 + om * 60 : Nat) : Int)
          parseInstantCore (cs.take (cs.length - 6)) (if c1 = '+' then off else -off)
        else none
      else none
    | _, _, _, _, _, _ => none

/-- `format(zonedDate, "yyyy-MM-dd'T'HH:mm:ss")` applied to the civil
datetime of local second `t` (epoch second already shifted by the zone
offset). -/
def formatLocalIso (t : Int) : String :=
  let c := civilFromDays (t.ediv 86400)
  let tod : Nat := (t.emod 86400).toNat
  ⟨digitChar (c.1.toNat / 1000) :: digitChar (c.1.toNat / 100) ::
   digitChar (c.1.toNat / 10) :: digitChar c.1.toNat ::
   '-' :: digitChar (c.2.1.toNat / 10) :: digitChar c.2.1.toNat ::
   '-' :: digitChar (c.2.2.toNat / 10) :: digitChar c.2.2.toNat ::
   'T' :: digitChar (tod / 3600 / 10) :: digitChar (tod / 3600) ::
   ':' :: digitChar (tod / 60 % 60 / 10) :: digitChar (tod / 60 % 60) ::
   ':' :: digitChar (tod % 60 / 10) :: digitChar (tod % 60) :: []⟩

/-- `normalizeDatetimeToLocalIso` from `src/lib/extractAnswers.ts`.
`tzOffsetMinutes` stands for the date-fns-tz IANA zone database (minutes
east of UTC); the `catch` branch of the source (reachable only through the
external date library) has no counterpart because the model's conversion is
total. -/
def normalizeDatetimeToLocalIso (tzOffsetMinutes : String → Int → Int)
    (datetimeStr timezone : Option String) : Option String :=
  if ¬ (strTruthy datetimeStr = true ∧ strTruthy timezone = true) then
    (if strTruthy datetimeStr then datetimeStr else none)
  else
    let d := datetimeStr.getD ""
    let tz := timezone.getD ""
    let hasZ := endsWithChar d 'Z'
    let hasOffset := offsetSuffixTest d
    if hasZ = false ∧ hasOffset = false then
      if isFullLocalIsoPattern d then some d
      else if isMinuteLocalIsoPattern d then some (d ++ ":00")
      else some d
    else
      match parseInstant d with
      | none => none
      | some epochSeconds =>
        some (formatLocalIso (epochSeconds + tzOffsetMinutes tz epochSeconds * 60))

/-! ### Data model: call rows, artifacts, extraction output -/

/-- The `reservation` object of the extraction output (section 6.2 shape). -/
structure ReservationResult where
  status : String
  details : String
  confirmed_datetime_local_iso : Option String
  timezone : Option String
  party_size : Option Int
  name : Option String
  callback_phone_e164 : Option String
  confirmation_number : Option String
  failure_reason : Option String
  failure_category : Option String
deriving DecidableEq, Repr

/-- One entry of the `answers` array.  `confidence` is a JSON number the code
only carries along, modelled as `Int`. -/
structure AnswerItem where
  question : String
  answer : String
  details : Option String
  confidence : Int
  needs_followup : Bool
  source_snippet : Option String
deriving DecidableEq, Repr

/-- The extraction service's JSON output. -/
structure ExtractionOutput where
  reservation : Option ReservationResult
  answers : List AnswerItem
  overall_notes : String
deriving DecidableEq, Repr

/-- The two JSON shapes written to `calls.reservation_result_json`: the
webhook's synthesized follow-up note
`\x7b failure_category, failure_reason \x7d`, and the extraction outcome. -/
inductive ResResultJson
  | followupNote (failure_category failure_reason : String)
  | extraction (r : ReservationResult)
deriving DecidableEq, Repr

/-- The columns of a `calls` row touched or read by this core.
`updated_at` is not modelled. -/
structure CallRow where
  status : String
  is_extracting : Bool
  call_intent : String
  reservation_status : Option String
  reservation_result_json : Option ResResultJson
  failure_reason : Option String
  failure_details : Option String
  reservation_timezone : Option String
deriving DecidableEq, Repr

/-- The `call_artifacts` row paired with a call.  `raw_provider_payload_json`
is the whole webhook payload `(event, call)`. -/
structure CallArtifact where
  transcript_text : Option String
  transcript_json : Option (List Utterance)
  answers_json : Option ExtractionOutput
  raw_payload : Option (String × CallPayload)
deriving DecidableEq, Repr

/-- External collaborators of one processing run: the OpenAI chat response
content, JS `JSON.parse` on it (including the source's defaulting of a
missing `answers`/`overall_notes`), and the timezone database. -/
structure ExtractionEnv where
  openaiKeyPresent : Bool
  openaiContent : Option String
  parseExtraction : String → Except String ExtractionOutput
  tzOffsetMinutes : String → Int → Int

/-- Result value of `extractAnswers`. -/
structure ExtractResult where
  success : Bool
  error : Option String
deriving DecidableEq, Repr

/-! ### Extraction orchestrator (`src/lib/extractAnswers.ts`) -/

/-- `formatTranscriptJson`: readable speaker-labelled text.  Word-level
timestamps are absent in the modelled utterances, so the `timeStr` prefix is
empty, as in the source for payloads without word timing. -/
def formatTranscriptJson (transcriptJson : List Utterance) : String :=
  if transcriptJson.length = 0 then ""
  else
    String.intercalate "\n" (transcriptJson.map (fun u =>
      let role := if strTruthy u.role then u.role.getD ""
                  else if strTruthy u.speaker then u.speaker.getD ""
                  else "Unknown"
      let content := u.content.getD ""
      strTrim (" " ++ role ++ ": " ++ content)))

/-- Step 1 of `extractAnswers`: pick the structured transcript if non-empty,
else trimmed plain text, else nothing. -/
def selectTranscript (transcriptJson : Option (List Utterance))
    (transcriptText : Option String) : Option String :=
  match transcriptJson with
  | some l =>
    if l.length > 0 then some (formatTranscriptJson l)
    else
      match transcriptText with
      | some t => if strTrim t = "" then none else some (strTrim t)
      | none => none
  | none =>
    match transcriptText with
    | some t => if strTrim t = "" then none else some (strTrim t)
    | none => none

/-- `callOpenAI` as observed through its result: configuration error, empty
response, JSON parse failure or the parsed output.  The prompt building has
no observable effect on the model's state and is not tracked. -/
def callOpenAIModel (env : ExtractionEnv) : Except String ExtractionOutput :=
  if env.openaiKeyPresent = false then Except.error "OPENAI_API_KEY not configured"
  else
    match env.openaiContent with
    | none => Except.error "OpenAI returned empty response"
    | some c =>
      if c = "" then Except.error "OpenAI returned empty response"
      else env.parseExtraction c

/-- `normalizeExtractionOutput`: normalize `confirmed_datetime_local_iso`
through the extraction's timezone or the request's, and default the
timezone from the request. -/
def normalizeExtractionOutput (tzOffsetMinutes : String → Int → Int)
    (extractedData : ExtractionOutput) (requestTimezone : Option String) :
    ExtractionOutput :=
  match extractedData.reservation with
  | none => extractedData
  | some res =>
    let timezone := if strTruthy res.timezone then res.timezone else requestTimezone
    let res1 :=
      if strTruthy res.confirmed_datetime_local_iso then
        { res with confirmed_datetime_local_iso :=
            (normalizeDatetimeToLocalIso tzOffsetMinutes
              res.confirmed_datetime_local_iso timezone) }
      else res
    let res2 :=
      if ¬ strTruthy res1.timezone ∧ strTruthy requestTimezone then
        { res1 with timezone := requestTimezone }
      else res1
    { extractedData with reservation := some res2 }

/-- `extractAnswers`: the whole orchestrator run over the call row and its
artifact.  The `calls` fetch of step 2 is the row itself (the webhook just
updated it); the fetch-failure branch, which depends only on storage
availability, is not modelled. -/
def extractAnswersModel (env : ExtractionEnv) (row : CallRow)
    (artifact : CallArtifact) (transcriptJson : Option (List Utterance))
    (transcriptText : Option String) : CallRow × CallArtifact × ExtractResult :=
  match selectTranscript transcriptJson transcriptText with
  | none =>
    ({ row with is_extracting := false, failure_reason := some "transcript_missing" },
     artifact, ⟨false, some "transcript_missing"⟩)
  | some _transcript =>
    match callOpenAIModel env with
    | Except.error msg =>
      ({ row with is_extracting := false,
                  failure_reason := some "extraction_failed",
                  failure_details := some (strSlice msg 1000) },
       artifact, ⟨false, some msg⟩)
    | Except.ok raw =>
      let extractedData := normalizeExtractionOutput env.tzOffsetMinutes raw row.reservation_timezone
      let artifact1 := { artifact with answers_json := some extractedData }
      let row1 :=
        if row.call_intent = "make_reservation" then
          match extractedData.reservation with
          | some res =>
            { row with is_extracting := false,
                       reservation_status := some res.status,
                       reservation_result_json := some (ResResultJson.extraction res) }
          | none => { row with is_extracting := false }
        else { row with is_extracting := false }
      (row1, artifact1, ⟨true, none⟩)

/-! ### Webhook handler (`src/app/api/webhooks/retell/route.ts`) -/

/-- JSON string literal (the serialized values contain no characters needing
escapes). -/
def jsonStr (s : String) : String := "\"" ++ s ++ "\""

/-- `buildFailureDetails`: `JSON.stringify` of the detection diagnostics, in
insertion order. -/
def buildFailureDetails (call : CallPayload) (humanAnswered : Bool) : String :=
  let l1 :=
    match call.disconnection_reason with
    | some r => if r = "" then [] else [jsonStr "disconnection_reason" ++ ":" ++ jsonStr r]
    | none => []
  let l2 :=
    match call.call_analysis.bind (fun a => a.in_voicemail) with
    | some b => [jsonStr "in_voicemail" ++ ":" ++ (if b then "true" else "false")]
    | none => []
  let l3 :=
    match call.call_analysis.bind (fun a => a.call_successful) with
    | some b => [jsonStr "call_successful" ++ ":" ++ (if b then "true" else "false")]
    | none => []
  let l4 :=
    match call.duration_ms with
    | some d => [jsonStr "duration_ms" ++ ":" ++ toString d]
    | none => []
  let l5 := [jsonStr "human_answered_detection" ++ ":" ++ (if humanAnswered then "true" else "false")]
  "\x7b" ++ String.intercalate "," (l1 ++ l2 ++ l3 ++ l4 ++ l5) ++ "\x7d"

/-- `noHumanReached`: voicemail or dial failure, unless strong human-answered
signals override. -/
def noHumanReachedOf (call : CallPayload) : Bool :=
  (detectVoicemailFromAnalysis call.call_analysis call.transcript ||
   isDialFailureDisconnection call.disconnection_reason) &&
  !(detectHumanAnswered call.transcript call.transcript_object call.duration_ms)

/-- `isTerminal`: status is `completed`/`failed` and `is_extracting` is false
(a *settled* call). -/
def isTerminalRow (row : CallRow) : Bool :=
  (if row.status = "completed" ∨ row.status = "failed" then true else false) &&
  !row.is_extracting

/-- `shouldAllowCallAnalyzedOverride`: `call_analyzed` may correct an earlier
terminal decision in either direction. -/
def callAnalyzedOverride (event : String) (call : CallPayload) (row : CallRow) : Bool :=
  (if event = "call_analyzed" then true else false) &&
  ((noHumanReachedOf call && (if row.status = "completed" then true else false)) ||
   (!noHumanReachedOf call && (if row.status = "failed" then true else false)))

/-- `hasTranscript`: `!!(call.transcript || call.transcript_object)`. -/
def hasTranscriptOf (call : CallPayload) : Bool :=
  strTruthy call.transcript || call.transcript_object.isSome

/-- The `switch (event)` of step 9: the status an event maps to (`none` for
unknown events, which are only logged). -/
def statusForEvent (event : String) : Option String :=
  if event = "call_started" then some "calling"
  else if event = "call_ended" ∨ event = "call_analyzed" then some "completed"
  else none

/-- `if (newStatus && canProgressStatus(currentStatus, newStatus))
callUpdates.status = newStatus`. -/
def progressRow (row : CallRow) (newStatus : Option String) : CallRow :=
  match newStatus with
  | some ns => if canProgressStatus row.status ns then { row with status := ns } else row
  | none => row

/-- Steps 8–9 of the handler: the `callUpdates` object applied to the call
row (status mapping guarded by `canProgressStatus`, `is_extracting`,
failure fields and the reservation follow-up repair). -/
def applyCallUpdates (event : String) (call : CallPayload) (row : CallRow) : CallRow :=
  let detectedVoicemail := detectVoicemailFromAnalysis call.call_analysis call.transcript
  let humanAnswered := detectHumanAnswered call.transcript call.transcript_object call.duration_ms
  if noHumanReachedOf call then
    let base :=
      { row with status := "failed", is_extracting := false,
                 failure_reason := some (if detectedVoicemail then
                     "The call went to voicemail."
                   else "Your phone call was not answered"),
                 failure_details := some (buildFailureDetails call humanAnswered) }
    if row.call_intent = "make_reservation" ∧ row.reservation_status = some "requested" then
      { base with reservation_status := some "needs_followup",
                  reservation_result_json :=
                    some (ResResultJson.followupNote "call_back_later"
                      (if detectedVoicemail then "Call went to voicemail"
                       else "Call was not answered")) }
    else base
  else
    let base := progressRow row (statusForEvent event)
    if event = "call_ended" ∨ event = "call_analyzed" then
      if hasTranscriptOf call then { base with is_extracting := true }
      else { base with is_extracting := false, failure_reason := some "transcript_missing" }
    else base

/-- Step 11 of the handler: upsert into `call_artifacts` (always the raw
payload; transcript fields only when truthy). -/
def upsertArtifact (event : String) (call : CallPayload) (artifact : CallArtifact) :
    CallArtifact :=
  { artifact with
      raw_payload := some (event, call),
      transcript_text := if strTruthy call.transcript then call.transcript
                         else artifact.transcript_text,
      transcript_json := if call.transcript_object.isSome then call.transcript_object
                         else artifact.transcript_json }

/-- Final state of one processed delivery. -/
structure ProcessResult where
  row : CallRow
  artifact : CallArtifact
  httpStatus : Nat
  ranExtraction : Bool
deriving Repr

/-- The `POST` handler of the webhook route after payload parsing and row
lookup (steps 6.5–13): classification, the settled-call short-circuit with
the `call_analyzed` override, row update, artifact upsert, the no-human
`answers_json` clearing and the conditional extraction run. -/
def processWebhookEvent (env : ExtractionEnv) (event : String) (call : CallPayload)
    (row : CallRow) (artifact : CallArtifact) : ProcessResult :=
  if isTerminalRow row && !callAnalyzedOverride event call row then
    ⟨row, artifact, 200, false⟩
  else
    let row1 := applyCallUpdates event call row
    let artifact1 := upsertArtifact event call artifact
    if noHumanReachedOf call then
      ⟨row1, { artifact1 with answers_json := none }, 204, false⟩
    else if event = "call_analyzed" ∧ hasTranscriptOf call then
      if artifact1.answers_json.isNone || callAnalyzedOverride event call row then
        let out := extractAnswersModel env row1 artifact1 call.transcript_object call.transcript
        ⟨out.1, out.2.1, 204, true⟩
      else ⟨row1, artifact1, 204, false⟩
    else ⟨row1, artifact1, 204, false⟩

/-! ### Webhook authentication phase (steps 1–4 of `POST`) -/

/-- An HTTP response as far as the model needs it. -/
structure HttpResponse where
  status : Nat
  body : Option String
deriving DecidableEq, Repr

/-- Steps 1–4 of `POST`: resolve the webhook API key (prefer
`RETELL_WEBHOOK_API_KEY`, fall back to `RETELL_API_KEY`, else a 500
configuration error issued before the signature header is consulted), then
require and verify the `x-retell-signature` header over the raw body.
`verify` stands for `Retell.verify` from the provider SDK. -/
def webhookAuthPhase (verify : String → String → String → Bool)
    (envWebhookKey envApiKey : Option String) (rawBody : String)
    (signature : Option String) : Except HttpResponse String :=
  match (if strTruthy envWebhookKey then envWebhookKey
         else if strTruthy envApiKey then envApiKey else none) with
  | none => Except.error ⟨500, some "Server configuration error"⟩
  | some key =>
    if ¬ strTruthy signature then Except.error ⟨401, some "Unauthorized"⟩
    else if verify rawBody key (signature.getD "") then Except.ok key
    else Except.error ⟨401, some "Unauthorized"⟩

/-! ### Helper lemmas -/

theorem extract_row_status (env : ExtractionEnv) (row : CallRow) (artifact : CallArtifact)
    (tj : Option (List Utterance)) (tt : Option String) :
    ((extractAnswersModel env row artifact tj tt).1).status = row.status := by
  unfold extractAnswersModel
  split
  · rfl
  · split
    · rfl
    · dsimp only
      split
      · split <;> rfl
      · rfl

theorem extract_row_intent (env : ExtractionEnv) (row : CallRow) (artifact : CallArtifact)
    (tj : Option (List Utterance)) (tt : Option String) :
    ((extractAnswersModel env row artifact tj tt).1).call_intent = row.call_intent := by
  unfold extractAnswersModel
  split
  · rfl
  · split
    · rfl
    · dsimp only
      split
      · split <;> rfl
      · rfl

theorem extract_row_reservation_of_ne (env : ExtractionEnv) (row : CallRow)
    (artifact : CallArtifact) (tj : Option (List Utterance)) (tt : Option String)
    (h : row.call_intent ≠ "make_reservation") :
    ((extractAnswersModel env row artifact tj tt).1).reservation_status = row.reservation_status ∧
    ((extractAnswersModel env row artifact tj tt).1).reservation_result_json = row.reservation_result_json := by
  unfold extractAnswersModel
  split
  · exact ⟨rfl, rfl⟩
  · split
    · exact ⟨rfl, rfl⟩
    · dsimp only
      split
      · exact absurd (by assumption) h
      · exact ⟨rfl, rfl⟩

theorem statusForEvent_cases (event : String) :
    statusForEvent event = none ∨ statusForEvent event = some "calling" ∨
    statusForEvent event = some "completed" := by
  unfold statusForEvent
  split
  · right; left; rfl
  · split
    · right; right; rfl
    · left; rfl

theorem progressRow_nonstatus (row : CallRow) (ns : Option String) :
    (progressRow row ns).is_extracting = row.is_extracting ∧
    (progressRow row ns).call_intent = row.call_intent ∧
    (progressRow row ns).reservation_status = row.reservation_status ∧
    (progressRow row ns).reservation_result_json = row.reservation_result_json ∧
    (progressRow row ns).failure_reason = row.failure_reason ∧
    (progressRow row ns).failure_details = row.failure_details ∧
    (progressRow row ns).reservation_timezone = row.reservation_timezone := by
  unfold progressRow
  split
  · split <;> exact ⟨rfl, rfl, rfl, rfl, rfl, rfl, rfl⟩
  · exact ⟨rfl, rfl, rfl, rfl, rfl, rfl, rfl⟩

theorem progressRow_status (row : CallRow) (ns : Option String) :
    (progressRow row ns).status = row.status ∨
    (∃ s, ns = some s ∧ canProgressStatus row.status s = true ∧
          (progressRow row ns).status = s) := by
  unfold progressRow
  split
  · rename_i s
    split
    · rename_i hcan
      exact Or.inr ⟨s, rfl, hcan, rfl⟩
    · exact Or.inl rfl
  · exact Or.inl rfl

theorem applyCallUpdates_intent (event : String) (call : CallPayload) (row : CallRow) :
    (applyCallUpdates event call row).call_intent = row.call_intent := by
  unfold applyCallUpdates
  split
  · split <;> rfl
  · dsimp only
    split
    · split <;> exact (progressRow_nonstatus row (statusForEvent event)).2.1
    · exact (progressRow_nonstatus row (statusForEvent event)).2.1

theorem applyCallUpdates_reservation_of_ne (event : String) (call : CallPayload)
    (row : CallRow) (h : row.call_intent ≠ "make_reservation") :
    (applyCallUpdates event call row).reservation_status = row.reservation_status ∧
    (applyCallUpdates event call row).reservation_result_json = row.reservation_result_json := by
  have hp := progressRow_nonstatus row (statusForEvent event)
  unfold applyCallUpdates
  split
  · split
    · rename_i hg
      exact absurd hg.1 h
    · exact ⟨rfl, rfl⟩
  · dsimp only
    split
    · split <;> exact ⟨hp.2.2.1, hp.2.2.2.1⟩
    · exact ⟨hp.2.2.1, hp.2.2.2.1⟩

theorem applyCallUpdates_status_cases (event : String) (call : CallPayload) (row : CallRow) :
    (applyCallUpdates event call row).status = row.status ∨
    (applyCallUpdates event call row).status = "failed" ∨
    (canProgressStatus row.status ((applyCallUpdates event call row).status) = true ∧
     ((applyCallUpdates event call row).status = "calling" ∨
      (applyCallUpdates event call row).status = "completed")) := by
  have hs := progressRow_status row (statusForEvent event)
  have hc := statusForEvent_cases event
  unfold applyCallUpdates
  split
  · split
    · right; left; rfl
    · right; left; rfl
  · dsimp only
    have key : (progressRow row (statusForEvent event)).status = row.status ∨
        (canProgressStatus row.status ((progressRow row (statusForEvent event)).status) = true ∧
         ((progressRow row (statusForEvent event)).status = "calling" ∨
          (progressRow row (statusForEvent event)).status = "completed")) := by
      rcases hs with h | ⟨s, hns, hcan, hst⟩
      · exact Or.inl h
      · right
        refine ⟨hst ▸ hcan, ?_⟩
        rcases hc with h0 | h1 | h2
        · rw [h0] at hns; cases hns
        · rw [h1] at hns; left; rw [hst]; exact (Option.some.injEq _ _ ▸ hns).symm
        · rw [h2] at hns; right; rw [hst]; exact (Option.some.injEq _ _ ▸ hns).symm
    have final : ∀ (r' : CallRow), r'.status = (progressRow row (statusForEvent event)).status →
        r'.status = row.status ∨ r'.status = "failed" ∨
        (canProgressStatus row.status r'.status = true ∧
         (r'.status = "calling" ∨ r'.status = "completed")) := by
      intro r' hr
      rcases key with h | ⟨hcan, hv⟩
      · exact Or.inl (hr.trans h)
      · exact Or.inr (Or.inr ⟨hr ▸ hcan, hr ▸ hv⟩)
    split
    · split
      · exact final _ rfl
      · exact final _ rfl
    · exact final _ rfl

/-! ### Claim theorems -/

/-- C5 counterexample: with the explicit `in_voicemail` flag present and
`false` (the primary layer is not silent) and a disconnection reason present
(`user_hangup`, so the secondary layer is not silent either), the
transcript-phrase check still fires and drives the classification to
voicemail/no-human-reached, contradicting the claim that the phrase match is
consulted only when both stronger layers are silent. -/
theorem C5_counterexample :
    detectVoicemailFromAnalysis (some ⟨some false, some true⟩)
      (some "Hello. You have reached us. At the tone, please record your message.") = true ∧
    noHumanReachedOf
      ⟨some "call_1", some "Hello. You have reached us. At the tone, please record your message.",
       none, some "user_hangup", some 3000, some ⟨some false, some true⟩⟩ = true := by
  exact ⟨by decide, by decide⟩

/-- C5 (amended): the transcript-phrase match is a fallback only with respect
to an *affirmative* `in_voicemail` flag: `detectVoicemailFromAnalysis` is true
exactly when the flag equals `true` or the (truthy) transcript contains one of
the canonical voicemail phrases.  An explicitly false flag does not suppress
the phrase check, and the disconnection-reason layer is not consulted by it at
all (it is combined separately, by disjunction, in `noHumanReachedOf`). -/
theorem C5_phrase_fallback_only_wrt_affirmative_flag
    (callAnalysis : Option CallAnalysis) (transcript : Option String) :
    detectVoicemailFromAnalysis callAnalysis transcript = true ↔
      (callAnalysis.bind (fun a => a.in_voicemail) = some true ∨
       (strTruthy transcript = true ∧
        VOICEMAIL_PHRASES.any
          (fun phrase => strContains (strToLower (transcript.getD "")) phrase) = true)) := by
  unfold detectVoicemailFromAnalysis
  split
  · rename_i h
    simp [h]
  · rename_i h
    split
    · rename_i ht
      simp [h, ht]
    · rename_i ht
      simp [h, ht]

/-- C10: if neither `RETELL_WEBHOOK_API_KEY` nor `RETELL_API_KEY` is set, the
handler answers 500 "Server configuration error" for every body and
signature (so before the signature is even considered and without touching
any state), and if only `RETELL_API_KEY` is set, that key is the one handed
to `Retell.verify` for signature verification. -/
theorem C10_key_resolution (verify : String → String → String → Bool)
    (envWebhookKey envApiKey : Option String) (rawBody : String)
    (signature : Option String) :
    (strTruthy envWebhookKey = false → strTruthy envApiKey = false →
      webhookAuthPhase verify envWebhookKey envApiKey rawBody signature =
        Except.error ⟨500, some "Server configuration error"⟩) ∧
    (∀ k, strTruthy envWebhookKey = false → envApiKey = some k → k ≠ "" →
      webhookAuthPhase verify envWebhookKey envApiKey rawBody signature =
        (if ¬ strTruthy signature = true then Except.error ⟨401, some "Unauthorized"⟩
         else if verify rawBody k (signature.getD "") = true then Except.ok k
         else Except.error ⟨401, some "Unauthorized"⟩)) := by
  constructor
  · intro h1 h2
    unfold webhookAuthPhase
    simp [h1, h2]
  · intro k h1 hA hk
    subst hA
    have h2 : strTruthy (some k) = true := by
      simp [strTruthy, hk]
    unfold webhookAuthPhase
    simp only [h1, h2, Bool.false_eq_true, if_false, if_true]

/-- C10 witness: with no key configured the 500 configuration error is
returned; with only the general API key `"general-key"` configured,
verification runs against that key and accepts. -/
theorem C10_key_resolution_witness :
    webhookAuthPhase (fun _ k _ => decide (k = "general-key")) none none "body" (some "sig") =
      Except.error ⟨500, some "Server configuration error"⟩ ∧
    webhookAuthPhase (fun _ k _ => decide (k = "general-key")) none (some "general-key")
      "body" (some "sig") = Except.ok "general-key" := by
  refine ⟨(C10_key_resolution _ none none "body" (some "sig")).1 rfl rfl, ?_⟩
  rw [(C10_key_resolution (fun _ k _ => decide (k = "general-key")) none (some "general-key")
        "body" (some "sig")).2 "general-key" rfl rfl (by decide)]
  rfl

/-- C4: per processed event, the status either stays put, becomes `failed`,
or moves strictly forward in the `STATUS_ORDER` progression; hence the
observed status sequence of a call is non-decreasing apart from transitions
into `failed`, which `canProgressStatus` always permits. -/
theorem C4_forward_only_progression (env : ExtractionEnv) (event : String)
    (call : CallPayload) (row : CallRow) (artifact : CallArtifact) :
    (processWebhookEvent env event call row artifact).row.status = row.status ∨
    (processWebhookEvent env event call row artifact).row.status = "failed" ∨
    jsIndexOf STATUS_ORDER row.status <
      jsIndexOf STATUS_ORDER ((processWebhookEvent env event call row artifact).row.status) := by
  have hA := applyCallUpdates_status_cases event call row
  have key : ∀ (r' : CallRow), r'.status = (applyCallUpdates event call row).status →
      (r'.status = row.status ∨ r'.status = "failed" ∨
       jsIndexOf STATUS_ORDER row.status < jsIndexOf STATUS_ORDER r'.status) := by
    intro r' hr
    rcases hA with h | h | ⟨hcan, hv⟩
    · exact Or.inl (hr.trans h)
    · exact Or.inr (Or.inl (hr.trans h))
    · right; right
      rw [hr]
      rcases hv with h1 | h1 <;> rw [h1] at hcan ⊢ <;>
        (unfold canProgressStatus at hcan; rw [if_neg (by decide)] at hcan;
         exact of_decide_eq_true hcan)
  unfold processWebhookEvent
  split
  · left; rfl
  · dsimp only
    split
    · exact key _ rfl
    · split
      · split
        · exact key _ (extract_row_status env _ _ _ _)
        · exact key _ rfl
      · exact key _ rfl

/-- C2: strong positive evidence of a real conversation — duration above
5000 ms, or an `Agent:`/`User:` transcript longer than 50 characters, or a
structured turn list with more than one non-empty turn — forces
`noHumanReached` to false whatever the voicemail flag, disconnection reason
and transcript phrases say; consequently a `call_analyzed` event on a
not-yet-completed call with a transcript and no stored answers advances the
status to `completed` and runs extraction. -/
theorem C2_human_answered_override (env : ExtractionEnv) (event : String)
    (call : CallPayload) (row : CallRow) (artifact : CallArtifact)
    (hEvidence :
      (∃ d, call.duration_ms = some d ∧ 5000 < d) ∨
      (∃ t, call.transcript = some t ∧ strContains (strToLower t) "agent:" = true ∧
            strContains (strToLower t) "user:" = true ∧ 50 < t.length) ∨
      (∃ l, call.transcript_object = some l ∧
            1 < (l.filter (fun e => 0 < (strTrim (e.content.getD "")).length)).length)) :
    detectHumanAnswered call.transcript call.transcript_object call.duration_ms = true ∧
    noHumanReachedOf call = false ∧
    (event = "call_analyzed" → jsIndexOf STATUS_ORDER row.status < 3 →
     hasTranscriptOf call = true → artifact.answers_json = none →
     (processWebhookEvent env event call row artifact).row.status = "completed" ∧
     (processWebhookEvent env event call row artifact).ranExtraction = true) := by
  have hHuman : detectHumanAnswered call.transcript call.transcript_object call.duration_ms = true := by
    unfold detectHumanAnswered
    rcases hEvidence with ⟨d, hd, h5⟩ | ⟨t, ht, hA, hU, hL⟩ | ⟨l, hl, hf⟩
    · rw [hd]; simp [h5]
    · rw [ht]
      have htne : t ≠ "" := by
        intro he
        rw [he] at hA
        exact absurd hA (by decide)
      simp [htne, hA, hU, hL]
    · rw [hl]
      have hlen : 1 < l.length := lt_of_lt_of_le hf (List.length_filter_le _ l)
      simp [hlen, hf]
  have hNo : noHumanReachedOf call = false := by
    unfold noHumanReachedOf
    rw [hHuman]
    simp
  refine ⟨hHuman, hNo, ?_⟩
  intro hev hidx htr hans
  subst hev
  have h3 : jsIndexOf STATUS_ORDER "completed" = 3 := by decide
  have hne1 : row.status ≠ "completed" := by
    intro he
    rw [he, h3] at hidx
    exact absurd hidx (by decide)
  have hne2 : row.status ≠ "failed" := by
    intro he
    rw [he] at hidx
    rw [show jsIndexOf STATUS_ORDER "failed" = 4 from by decide] at hidx
    exact absurd hidx (by decide)
  have hterm : isTerminalRow row = false := by
    unfold isTerminalRow
    rw [if_neg (by rintro (h | h); exacts [hne1 h, hne2 h])]
    simp
  have hcan : canProgressStatus row.status "completed" = true := by
    unfold canProgressStatus
    rw [if_neg (by decide : ¬("completed" = "failed"))]
    rw [h3]
    exact decide_eq_true hidx
  have hrow1 : (applyCallUpdates "call_analyzed" call row).status = "completed" := by
    unfold applyCallUpdates
    rw [if_neg (show ¬ (noHumanReachedOf call = true) by rw [hNo]; exact Bool.false_ne_true)]
    dsimp only
    rw [if_pos (Or.inr rfl :
      ("call_analyzed" : String) = "call_ended" ∨ ("call_analyzed" : String) = "call_analyzed")]
    rw [if_pos htr]
    show (progressRow row (statusForEvent "call_analyzed")).status = "completed"
    rw [show statusForEvent "call_analyzed" = some "completed" from rfl]
    unfold progressRow
    dsimp only
    rw [if_pos hcan]
  unfold processWebhookEvent
  rw [if_neg (show ¬ ((isTerminalRow row && !callAnalyzedOverride "call_analyzed" call row) = true) by
    rw [hterm, Bool.false_and]; exact Bool.false_ne_true)]
  dsimp only
  rw [if_neg (show ¬ (noHumanReachedOf call = true) by rw [hNo]; exact Bool.false_ne_true)]
  rw [if_pos (show ("call_analyzed" : String) = "call_analyzed" ∧ hasTranscriptOf call = true
    from ⟨rfl, htr⟩)]
  rw [if_pos (show ((upsertArtifact "call_analyzed" call artifact).answers_json.isNone ||
      callAnalyzedOverride "call_analyzed" call row) = true by
    have hup : (upsertArtifact "call_analyzed" call artifact).answers_json = none := hans
    rw [hup]
    rfl)]
  exact ⟨(extract_row_status env _ _ _ _).trans hrow1, rfl⟩

/-- C2 witness: a call with `in_voicemail=true` but a 120-second duration and
a two-party transcript is classified human-answered; on `call_analyzed` a
`calling` reservation call completes and extraction runs. -/
theorem C2_human_answered_override_witness :
    noHumanReachedOf
      ⟨some "call_3", some "Agent: hello, I would like to book a table. User: of course, for how many?",
       none, none, some 120000, some ⟨some true, some true⟩⟩ = false ∧
    (processWebhookEvent ⟨true, some "out", fun _ => Except.ok ⟨none, [], ""⟩, fun _ _ => 0⟩
      "call_analyzed"
      ⟨some "call_3", some "Agent: hello, I would like to book a table. User: of course, for how many?",
       none, none, some 120000, some ⟨some true, some true⟩⟩
      ⟨"calling", false, "questions_only", none, none, none, none, none⟩
      ⟨none, none, none, none⟩).row.status = "completed" := by
  have h := C2_human_answered_override
    ⟨true, some "out", fun _ => Except.ok ⟨none, [], ""⟩, fun _ _ => 0⟩
    "call_analyzed"
    ⟨some "call_3", some "Agent: hello, I would like to book a table. User: of course, for how many?",
     none, none, some 120000, some ⟨some true, some true⟩⟩
    ⟨"calling", false, "questions_only", none, none, none, none, none⟩
    ⟨none, none, none, none⟩
    (Or.inl ⟨120000, rfl, by decide⟩)
  exact ⟨h.2.1, (h.2.2 rfl (by decide) (by decide) rfl).1⟩

/-- C6: a processed `call_ended`/`call_analyzed` event classified
no-human-reached on a `make_reservation` call whose reservation is still
`requested` marks the call failed, clears `is_extracting`, records a
voicemail/no-answer failure reason, advances the reservation to
`needs_followup` and synthesizes a non-null `reservation_result` follow-up
note with the `call_back_later` category. -/
theorem C6_reservation_followup_repair (env : ExtractionEnv) (event : String)
    (call : CallPayload) (row : CallRow) (artifact : CallArtifact)
    (hno : noHumanReachedOf call = true)
    (_hev : event = "call_ended" ∨ event = "call_analyzed")
    (hskip : (isTerminalRow row && !callAnalyzedOverride event call row) = false)
    (hint : row.call_intent = "make_reservation")
    (hres : row.reservation_status = some "requested") :
    (processWebhookEvent env event call row artifact).row.status = "failed" ∧
    (processWebhookEvent env event call row artifact).row.is_extracting = false ∧
    ((processWebhookEvent env event call row artifact).row.failure_reason =
       some "The call went to voicemail." ∨
     (processWebhookEvent env event call row artifact).row.failure_reason =
       some "Your phone call was not answered") ∧
    (processWebhookEvent env event call row artifact).row.reservation_status =
      some "needs_followup" ∧
    ∃ why, (processWebhookEvent env event call row artifact).row.reservation_result_json =
      some (ResResultJson.followupNote "call_back_later" why) := by
  unfold processWebhookEvent
  rw [if_neg (show ¬ ((isTerminalRow row && !callAnalyzedOverride event call row) = true) by
    rw [hskip]; exact Bool.false_ne_true)]
  dsimp only
  rw [if_pos hno]
  unfold applyCallUpdates
  rw [if_pos hno]
  dsimp only
  rw [if_pos (⟨hint, hres⟩ :
    row.call_intent = "make_reservation" ∧ row.reservation_status = some "requested")]
  refine ⟨rfl, rfl, ?_, rfl, ⟨_, rfl⟩⟩
  by_cases hdv : detectVoicemailFromAnalysis call.call_analysis call.transcript = true
  · left
    exact congrArg some (if_pos hdv)
  · right
    exact congrArg some (if_neg hdv)

/-- C6 witness: a voicemail `call_ended` on a `calling` reservation call with
`reservation_status="requested"`. -/
theorem C6_reservation_followup_repair_witness :
    (processWebhookEvent ⟨true, none, fun _ => Except.error "unused", fun _ _ => 0⟩
      "call_ended"
      ⟨some "call_4", none, none, some "voicemail_reached", some 2000, some ⟨some true, none⟩⟩
      ⟨"calling", false, "make_reservation", some "requested", none, none, none, none⟩
      ⟨none, none, none, none⟩).row.reservation_status = some "needs_followup" ∧
    ∃ why, (processWebhookEvent ⟨true, none, fun _ => Except.error "unused", fun _ _ => 0⟩
      "call_ended"
      ⟨some "call_4", none, none, some "voicemail_reached", some 2000, some ⟨some true, none⟩⟩
      ⟨"calling", false, "make_reservation", some "requested", none, none, none, none⟩
      ⟨none, none, none, none⟩).row.reservation_result_json =
        some (ResResultJson.followupNote "call_back_later" why) := by
  have h := C6_reservation_followup_repair
    ⟨true, none, fun _ => Except.error "unused", fun _ _ => 0⟩
    "call_ended"
    ⟨some "call_4", none, none, some "voicemail_reached", some 2000, some ⟨some true, none⟩⟩
    ⟨"calling", false, "make_reservation", some "requested", none, none, none, none⟩
    ⟨none, none, none, none⟩
    (by decide) (Or.inl rfl) (by decide) rfl rfl
  exact ⟨h.2.2.2.1, h.2.2.2.2⟩

/-- C7: neither webhook processing nor the extraction orchestrator ever
writes `reservation_status`/`reservation_result_json` of a `questions_only`
call: both fields come out exactly as they went in, for every event, payload
and extraction outcome. -/
theorem C7_questions_only_isolation (env : ExtractionEnv) (event : String)
    (call : CallPayload) (row : CallRow) (artifact : CallArtifact)
    (tj : Option (List Utterance)) (tt : Option String)
    (h : row.call_intent = "questions_only") :
    (processWebhookEvent env event call row artifact).row.reservation_status =
      row.reservation_status ∧
    (processWebhookEvent env event call row artifact).row.reservation_result_json =
      row.reservation_result_json ∧
    (extractAnswersModel env row artifact tj tt).1.reservation_status =
      row.reservation_status ∧
    (extractAnswersModel env row artifact tj tt).1.reservation_result_json =
      row.reservation_result_json := by
  have hne : row.call_intent ≠ "make_reservation" := by
    rw [h]; decide
  have hA := applyCallUpdates_reservation_of_ne event call row hne
  have hne1 : (applyCallUpdates event call row).call_intent ≠ "make_reservation" := by
    rw [applyCallUpdates_intent]; exact hne
  have hE := extract_row_reservation_of_ne env (applyCallUpdates event call row)
    (upsertArtifact event call artifact) call.transcript_object call.transcript hne1
  have hE0 := extract_row_reservation_of_ne env row artifact tj tt hne
  have hP : (processWebhookEvent env event call row artifact).row.reservation_status =
      row.reservation_status ∧
      (processWebhookEvent env event call row artifact).row.reservation_result_json =
      row.reservation_result_json := by
    unfold processWebhookEvent
    split
    · exact ⟨rfl, rfl⟩
    · dsimp only
      split
      · exact hA
      · split
        · split
          · exact ⟨hE.1.trans hA.1, hE.2.trans hA.2⟩
          · exact hA
        · exact hA
  exact ⟨hP.1, hP.2, hE0.1, hE0.2⟩

/-- C7 witness: a voicemail `call_ended` and a successful extraction on a
`questions_only` call leave both reservation fields `none`. -/
theorem C7_questions_only_isolation_witness :
    (processWebhookEvent ⟨true, some "out", fun _ => Except.ok ⟨none, [], ""⟩, fun _ _ => 0⟩
      "call_ended"
      ⟨some "call_5", none, none, some "voicemail_reached", some 2000, none⟩
      ⟨"calling", false, "questions_only", none, none, none, none, none⟩
      ⟨none, none, none, none⟩).row.reservation_status = none ∧
    (extractAnswersModel ⟨true, some "out", fun _ => Except.ok ⟨none, [], ""⟩, fun _ _ => 0⟩
      ⟨"calling", false, "questions_only", none, none, none, none, none⟩
      ⟨none, none, none, none⟩ none (some "Agent: hi User: hello")).1.reservation_result_json = none := by
  have h := C7_questions_only_isolation
    ⟨true, some "out", fun _ => Except.ok ⟨none, [], ""⟩, fun _ _ => 0⟩
    "call_ended"
    ⟨some "call_5", none, none, some "voicemail_reached", some 2000, none⟩
    ⟨"calling", false, "questions_only", none, none, none, none, none⟩
    ⟨none, none, none, none⟩ none (some "Agent: hi User: hello") rfl
  exact ⟨h.1, h.2.2.2⟩

/-- C9: when the extraction service yields empty or unparsable output (with
the API key configured and a transcript at hand), `extractAnswers` resolves
it as a hard failure: the status is untouched, the artifact (hence
`answers_json`) is untouched, `is_extracting` is cleared, the failure reason
is `extraction_failed` with diagnostic detail truncated to at most 1000
characters, and the orchestrator returns an error value instead of throwing
into the webhook request path. -/
theorem C9_extraction_failure_handling (env : ExtractionEnv) (row : CallRow)
    (artifact : CallArtifact) (tj : Option (List Utterance)) (tt : Option String)
    (t : String) (htr : selectTranscript tj tt = some t)
    (hkey : env.openaiKeyPresent = true)
    (hbad : env.openaiContent = none ∨ env.openaiContent = some "" ∨
            (∃ c e, env.openaiContent = some c ∧ c ≠ "" ∧
                    env.parseExtraction c = Except.error e)) :
    ∃ msg, callOpenAIModel env = Except.error msg ∧
      (extractAnswersModel env row artifact tj tt).1.status = row.status ∧
      (extractAnswersModel env row artifact tj tt).2.1 = artifact ∧
      (extractAnswersModel env row artifact tj tt).1.is_extracting = false ∧
      (extractAnswersModel env row artifact tj tt).1.failure_reason =
        some "extraction_failed" ∧
      (extractAnswersModel env row artifact tj tt).1.failure_details =
        some (strSlice msg 1000) ∧
      (strSlice msg 1000).length ≤ 1000 ∧
      (extractAnswersModel env row artifact tj tt).2.2.success = false := by
  have hcall : ∃ msg, callOpenAIModel env = Except.error msg := by
    unfold callOpenAIModel
    rw [if_neg (by rw [hkey]; decide)]
    rcases hbad with h0 | h0 | ⟨c, e, hc, hcne, hp⟩
    · refine ⟨"OpenAI returned empty response", ?_⟩
      rw [h0]
    · refine ⟨"OpenAI returned empty response", ?_⟩
      rw [h0]
      rfl
    · refine ⟨e, ?_⟩
      rw [hc]
      dsimp only
      rw [if_neg hcne, hp]
  obtain ⟨msg, hmsg⟩ := hcall
  refine ⟨msg, hmsg, ?_⟩
  unfold extractAnswersModel
  rw [htr, hmsg]
  refine ⟨rfl, rfl, rfl, rfl, rfl, ?_, rfl⟩
  show (msg.data.take 1000).length ≤ 1000
  rw [List.length_take]
  exact Nat.min_le_left _ _

/-- C9 witness: unparsable output on a concrete run. -/
theorem C9_extraction_failure_handling_witness :
    (extractAnswersModel ⟨true, some "not json", fun c => Except.error ("Unexpected token " ++ c),
        fun _ _ => 0⟩
      ⟨"completed", true, "questions_only", none, none, none, none, none⟩
      ⟨none, none, none, none⟩ none (some "Agent: hi User: hello")).1.failure_reason =
      some "extraction_failed" ∧
    (extractAnswersModel ⟨true, some "not json", fun c => Except.error ("Unexpected token " ++ c),
        fun _ _ => 0⟩
      ⟨"completed", true, "questions_only", none, none, none, none, none⟩
      ⟨none, none, none, none⟩ none (some "Agent: hi User: hello")).1.status = "completed" := by
  have h := C9_extraction_failure_handling
    ⟨true, some "not json", fun c => Except.error ("Unexpected token " ++ c), fun _ _ => 0⟩
    ⟨"completed", true, "questions_only", none, none, none, none, none⟩
    ⟨none, none, none, none⟩ none (some "Agent: hi User: hello")
    "Agent: hi User: hello" (by decide) rfl
    (Or.inr (Or.inr ⟨"not json", "Unexpected token not json", rfl, by decide, rfl⟩))
  obtain ⟨msg, _, hst, _, _, hfr, _, _⟩ := h
  exact ⟨hfr, hst⟩

/-- C3 counterexample: a `call_connected` event is not in the handler's
`switch` — processing it on a fresh `queued` call leaves the status
`queued`, never `connected`, refuting the claimed
call-connected → connected mapping. -/
theorem C3_counterexample :
    (processWebhookEvent ⟨true, none, fun _ => Except.error "unused", fun _ _ => 0⟩
      "call_connected" ⟨some "call_6", none, none, none, none, none⟩
      ⟨"queued", false, "questions_only", none, none, none, none, none⟩
      ⟨none, none, none, none⟩).row.status = "queued" ∧
    ¬ (processWebhookEvent ⟨true, none, fun _ => Except.error "unused", fun _ _ => 0⟩
      "call_connected" ⟨some "call_6", none, none, none, none, none⟩
      ⟨"queued", false, "questions_only", none, none, none, none, none⟩
      ⟨none, none, none, none⟩).row.status = "connected" := by
  exact ⟨rfl, by decide⟩

/-- C3 (amended): the event→status mapping implemented by the handler is:
`call_started` → `calling` and `call_ended`/`call_analyzed` → `completed`
when the classifier says a human was reached (`failed` otherwise), each
subject to the progression guard; `call_connected` is an *unknown* event —
it causes no status change, and no event ever moves a call into
`connected`. -/
theorem C3_event_status_mapping (env : ExtractionEnv) (event : String)
    (call : CallPayload) (row : CallRow) (artifact : CallArtifact) :
    (noHumanReachedOf call = false →
     (isTerminalRow row && !callAnalyzedOverride event call row) = false →
     ((event = "call_started" → canProgressStatus row.status "calling" = true →
       (processWebhookEvent env event call row artifact).row.status = "calling") ∧
      ((event = "call_ended" ∨ event = "call_analyzed") →
       canProgressStatus row.status "completed" = true →
       (processWebhookEvent env event call row artifact).row.status = "completed") ∧
      (event = "call_connected" →
       (processWebhookEvent env event call row artifact).row.status = row.status))) ∧
    (noHumanReachedOf call = true →
     (isTerminalRow row && !callAnalyzedOverride event call row) = false →
     (processWebhookEvent env event call row artifact).row.status = "failed") ∧
    (row.status ≠ "connected" →
     (processWebhookEvent env event call row artifact).row.status ≠ "connected") := by
  have hbase : ∀ (hno : noHumanReachedOf call = false)
      (hskip : (isTerminalRow row && !callAnalyzedOverride event call row) = false),
      (processWebhookEvent env event call row artifact).row.status =
        (applyCallUpdates event call row).status := by
    intro hno hskip
    unfold processWebhookEvent
    rw [if_neg (show ¬ ((isTerminalRow row && !callAnalyzedOverride event call row) = true) by
      rw [hskip]; exact Bool.false_ne_true)]
    dsimp only
    rw [if_neg (show ¬ (noHumanReachedOf call = true) by rw [hno]; exact Bool.false_ne_true)]
    split
    · split
      · exact extract_row_status env _ _ _ _
      · rfl
    · rfl
  have happly : ∀ (hno : noHumanReachedOf call = false) (ns : String)
      (hstat : statusForEvent event = some ns)
      (hcan : canProgressStatus row.status ns = true),
      (applyCallUpdates event call row).status = ns := by
    intro hno ns hstat hcan
    unfold applyCallUpdates
    rw [if_neg (show ¬ (noHumanReachedOf call = true) by rw [hno]; exact Bool.false_ne_true)]
    dsimp only
    have hpr : (progressRow row (statusForEvent event)).status = ns := by
      rw [hstat]
      unfold progressRow
      dsimp only
      rw [if_pos hcan]
    split
    · split
      · exact hpr
      · exact hpr
    · exact hpr
  refine ⟨?_, ?_, ?_⟩
  · intro hno hskip
    refine ⟨?_, ?_, ?_⟩
    · intro hev hcan
      subst hev
      exact (hbase hno hskip).trans (happly hno "calling" rfl hcan)
    · intro hev hcan
      have hstat : statusForEvent event = some "completed" := by
        unfold statusForEvent
        rw [if_neg (show ¬ (event = "call_started") by
          rcases hev with h | h <;> (rw [h]; decide))]
        rw [if_pos hev]
      exact (hbase hno hskip).trans (happly hno "completed" hstat hcan)
    · intro hev
      subst hev
      have hstat : statusForEvent "call_connected" = none := rfl
      refine (hbase hno hskip).trans ?_
      unfold applyCallUpdates
      rw [if_neg (show ¬ (noHumanReachedOf call = true) by rw [hno]; exact Bool.false_ne_true)]
      dsimp only
      rw [if_neg (show ¬ (("call_connected" : String) = "call_ended" ∨
        ("call_connected" : String) = "call_analyzed") by
        rintro (h | h) <;> exact absurd h (by decide))]
      rw [hstat]
      rfl
  · intro hno hskip
    unfold processWebhookEvent
    rw [if_neg (show ¬ ((isTerminalRow row && !callAnalyzedOverride event call row) = true) by
      rw [hskip]; exact Bool.false_ne_true)]
    dsimp only
    rw [if_pos hno]
    unfold applyCallUpdates
    rw [if_pos hno]
    dsimp only
    split
    · rfl
    · rfl
  · intro hrow hconn
    have hm := C4_forward_only_progression env event call row artifact
    have hA := applyCallUpdates_status_cases event call row
    rcases hm with h | h | _
    · exact hrow (h ▸ hconn)
    · rw [hconn] at h
      exact absurd h (by decide)
    · -- the status strictly advanced, so it came from applyCallUpdates as
      -- "calling" or "completed" (or the extraction-preserved copy thereof)
      have hfin : (processWebhookEvent env event call row artifact).row.status =
          (applyCallUpdates event call row).status ∨
          (processWebhookEvent env event call row artifact).row.status = row.status := by
        unfold processWebhookEvent
        split
        · exact Or.inr rfl
        · dsimp only
          split
          · exact Or.inl rfl
          · split
            · split
              · exact Or.inl (extract_row_status env _ _ _ _)
              · exact Or.inl rfl
            · exact Or.inl rfl
      rcases hfin with hf | hf
      · rw [hconn] at hf
        rcases hA with h' | h' | ⟨_, h' | h'⟩ <;> rw [← hf] at h'
        · exact hrow h'.symm
        · exact absurd h' (by decide)
        · exact absurd h' (by decide)
        · exact absurd h' (by decide)
      · exact hrow (hf ▸ hconn)

/-- C3 witness: a `call_started` event moves a fresh `queued` call to
`calling`, and a human-answered `call_ended` moves a `calling` call to
`completed`. -/
theorem C3_event_status_mapping_witness :
    (processWebhookEvent ⟨true, none, fun _ => Except.error "unused", fun _ _ => 0⟩
      "call_started" ⟨some "call_7", none, none, none, none, none⟩
      ⟨"queued", false, "questions_only", none, none, none, none, none⟩
      ⟨none, none, none, none⟩).row.status = "calling" ∧
    (processWebhookEvent ⟨true, none, fun _ => Except.error "unused", fun _ _ => 0⟩
      "call_ended"
      ⟨some "call_7", some "Agent: hello there, table for two? User: yes of course, at seven pm.",
       none, none, some 60000, none⟩
      ⟨"calling", false, "questions_only", none, none, none, none, none⟩
      ⟨none, none, none, none⟩).row.status = "completed" := by
  constructor
  · exact ((C3_event_status_mapping ⟨true, none, fun _ => Except.error "unused", fun _ _ => 0⟩
      "call_started" ⟨some "call_7", none, none, none, none, none⟩
      ⟨"queued", false, "questions_only", none, none, none, none, none⟩
      ⟨none, none, none, none⟩).1 (by decide) (by decide)).1 rfl (by decide)
  · exact ((C3_event_status_mapping ⟨true, none, fun _ => Except.error "unused", fun _ _ => 0⟩
      "call_ended"
      ⟨some "call_7", some "Agent: hello there, table for two? User: yes of course, at seven pm.",
       none, none, some 60000, none⟩
      ⟨"calling", false, "questions_only", none, none, none, none, none⟩
      ⟨none, none, none, none⟩).1 (by decide) (by decide)).2.1 (Or.inl rfl) (by decide)

/-- C1 (code bug): on a *settled failed* call, a corrective `call_analyzed`
event carrying clear human-answered evidence passes the override gate
(`callAnalyzedOverride = true`, so processing is not a no-op), runs
extraction and writes `answers_json` — but the status never flips to
`completed`: the `canProgressStatus("failed", "completed")` guard silently
drops the update the override comments promise ("correct to completed"),
leaving a permanently `failed` call with freshly extracted answers. -/
theorem C1_corrective_event_never_unfails :
    isTerminalRow ⟨"failed", false, "questions_only", none, none,
      some "Your phone call was not answered", none, none⟩ = true ∧
    callAnalyzedOverride "call_analyzed"
      ⟨some "call_8", some "Agent: good evening, can I book a table? User: yes, for two at seven.",
       none, none, some 120000, none⟩
      ⟨"failed", false, "questions_only", none, none,
       some "Your phone call was not answered", none, none⟩ = true ∧
    canProgressStatus "failed" "completed" = false ∧
    (processWebhookEvent ⟨true, some "out", fun _ => Except.ok ⟨none, [], ""⟩, fun _ _ => 0⟩
      "call_analyzed"
      ⟨some "call_8", some "Agent: good evening, can I book a table? User: yes, for two at seven.",
       none, none, some 120000, none⟩
      ⟨"failed", false, "questions_only", none, none,
       some "Your phone call was not answered", none, none⟩
      ⟨none, none, none, none⟩).ranExtraction = true ∧
    (processWebhookEvent ⟨true, some "out", fun _ => Except.ok ⟨none, [], ""⟩, fun _ _ => 0⟩
      "call_analyzed"
      ⟨some "call_8", some "Agent: good evening, can I book a table? User: yes, for two at seven.",
       none, none, some 120000, none⟩
      ⟨"failed", false, "questions_only", none, none,
       some "Your phone call was not answered", none, none⟩
      ⟨none, none, none, none⟩).artifact.answers_json = some ⟨none, [], ""⟩ ∧
    (processWebhookEvent ⟨true, some "out", fun _ => Except.ok ⟨none, [], ""⟩, fun _ _ => 0⟩
      "call_analyzed"
      ⟨some "call_8", some "Agent: good evening, can I book a table? User: yes, for two at seven.",
       none, none, some 120000, none⟩
      ⟨"failed", false, "questions_only", none, none,
       some "Your phone call was not answered", none, none⟩
      ⟨none, none, none, none⟩).row.status = "failed" := by
  exact ⟨by decide, by decide, by decide, rfl, by decide, by decide⟩

/-! ### Lemmas about the datetime patterns and formatter -/

theorem digitChar_ne_Z (n : Nat) : digitChar n ≠ 'Z' := by
  unfold digitChar
  have h : n % 10 < 10 := Nat.mod_lt _ (by decide)
  revert h
  generalize n % 10 = m
  intro h
  interval_cases m <;> decide

theorem isDigit_ne_Z {c : Char} (h : c.isDigit = true) : c ≠ 'Z' := by
  intro he
  rw [he] at h
  exact absurd h (by decide)

theorem matchToks_length : ∀ (ps : List PatTok) (cs : List Char),
    matchToks ps cs = true → cs.length = ps.length := by
  intro ps
  induction ps with
  | nil =>
    intro cs h
    cases cs with
    | nil => rfl
    | cons c cs => simp [matchToks] at h
  | cons p ps ih =>
    intro cs h
    cases cs with
    | nil => cases p <;> simp [matchToks] at h
    | cons c cs =>
      cases p with
      | dig =>
        rw [matchToks, Bool.and_eq_true] at h
        simp [ih cs h.2]
      | lit a =>
        rw [matchToks, Bool.and_eq_true] at h
        simp [ih cs h.2]

theorem matchToks_lit : ∀ (ps : List PatTok) (cs : List Char),
    matchToks ps cs = true →
    ∀ (i : Nat) (a : Char), ps[i]? = some (PatTok.lit a) → cs[i]? = some a := by
  intro ps
  induction ps with
  | nil =>
    intro cs h i a hp
    simp at hp
  | cons p ps ih =>
    intro cs h i a hp
    cases cs with
    | nil => cases p <;> simp [matchToks] at h
    | cons c cs =>
      cases i with
      | zero =>
        rw [List.getElem?_cons_zero] at hp
        rw [List.getElem?_cons_zero]
        cases p with
        | dig => simp at hp
        | lit b =>
          have hb : b = a := by
            simpa using hp
          subst hb
          rw [matchToks, Bool.and_eq_true] at h
          have hc : c = b := by
            have h1 := h.1
            split at h1
            · assumption
            · exact absurd h1 (by decide)
          rw [hc]
      | succ n =>
        rw [List.getElem?_cons_succ] at hp
        rw [List.getElem?_cons_succ]
        cases p with
        | dig =>
          rw [matchToks, Bool.and_eq_true] at h
          exact ih cs h.2 n a hp
        | lit b =>
          rw [matchToks, Bool.and_eq_true] at h
          exact ih cs h.2 n a hp

theorem matchToks_dig : ∀ (ps : List PatTok) (cs : List Char),
    matchToks ps cs = true →
    ∀ (i : Nat), ps[i]? = some PatTok.dig →
    ∃ c, cs[i]? = some c ∧ c.isDigit = true := by
  intro ps
  induction ps with
  | nil =>
    intro cs h i hp
    simp at hp
  | cons p ps ih =>
    intro cs h i hp
    cases cs with
    | nil => cases p <;> simp [matchToks] at h
    | cons c cs =>
      cases i with
      | zero =>
        rw [List.getElem?_cons_zero] at hp
        cases p with
        | lit b => simp at hp
        | dig =>
          rw [matchToks, Bool.and_eq_true] at h
          exact ⟨c, List.getElem?_cons_zero, h.1⟩
      | succ n =>
        rw [List.getElem?_cons_succ] at hp
        cases p with
        | dig =>
          rw [matchToks, Bool.and_eq_true] at h
          obtain ⟨c', hc', hd⟩ := ih cs h.2 n hp
          exact ⟨c', by rw [List.getElem?_cons_succ]; exact hc', hd⟩
        | lit b =>
          rw [matchToks, Bool.and_eq_true] at h
          obtain ⟨c', hc', hd⟩ := ih cs h.2 n hp
          exact ⟨c', by rw [List.getElem?_cons_succ]; exact hc', hd⟩

theorem full_pattern_facts (d : String) (h : isFullLocalIsoPattern d = true) :
    d.data.length = 19 ∧ d ≠ "" ∧ endsWithChar d 'Z' = false ∧
    offsetSuffixTest d = false := by
  have hm : matchToks fullLocalIsoToks d.data = true := h
  have hlen : d.data.length = 19 := by
    have h1 := matchToks_length fullLocalIsoToks d.data hm
    rw [h1]
    rfl
  have hne : d ≠ "" := by
    intro he
    rw [he] at hlen
    exact absurd hlen (by decide)
  obtain ⟨c18, hc18, hd18⟩ := matchToks_dig fullLocalIsoToks d.data hm 18 rfl
  have h13 : d.data[13]? = some ':' := matchToks_lit fullLocalIsoToks d.data hm 13 ':' rfl
  refine ⟨hlen, hne, ?_, ?_⟩
  · unfold endsWithChar
    rw [List.getLast?_eq_getElem?, hlen]
    rw [show (19 : Nat) - 1 = 18 from rfl, hc18]
    simp [isDigit_ne_Z hd18]
  · unfold offsetSuffixTest
    dsimp only
    rw [hlen]
    rw [show (19 : Nat) - 6 = 13 from rfl, h13]
    obtain ⟨c14, hc14, _⟩ := matchToks_dig fullLocalIsoToks d.data hm 14 rfl
    obtain ⟨c15, hc15, _⟩ := matchToks_dig fullLocalIsoToks d.data hm 15 rfl
    obtain ⟨c17, hc17, _⟩ := matchToks_dig fullLocalIsoToks d.data hm 17 rfl
    have h16 : d.data[16]? = some ':' := matchToks_lit fullLocalIsoToks d.data hm 16 ':' rfl
    rw [show (19 : Nat) - 5 = 14 from rfl, hc14]
    rw [show (19 : Nat) - 4 = 15 from rfl, hc15]
    rw [show (19 : Nat) - 3 = 16 from rfl, h16]
    rw [show (19 : Nat) - 2 = 17 from rfl, hc17]
    rw [show (19 : Nat) - 1 = 18 from rfl, hc18]
    rfl

theorem minute_pattern_facts (d : String) (h : isMinuteLocalIsoPattern d = true) :
    d.data.length = 16 ∧ d ≠ "" ∧ endsWithChar d 'Z' = false ∧
    offsetSuffixTest d = false ∧ isFullLocalIsoPattern d = false ∧
    endsWithChar (d ++ ":00") 'Z' = false ∧ offsetSuffixTest (d ++ ":00") = false := by
  have hm : matchToks minuteLocalIsoToks d.data = true := h
  have hlen : d.data.length = 16 := by
    have h1 := matchToks_length minuteLocalIsoToks d.data hm
    rw [h1]
    rfl
  have hne : d ≠ "" := by
    intro he
    rw [he] at hlen
    exact absurd hlen (by decide)
  obtain ⟨c15, hc15, hd15⟩ := matchToks_dig minuteLocalIsoToks d.data hm 15 rfl
  obtain ⟨c14, hc14, hd14⟩ := matchToks_dig minuteLocalIsoToks d.data hm 14 rfl
  obtain ⟨c11, hc11, _⟩ := matchToks_dig minuteLocalIsoToks d.data hm 11 rfl
  obtain ⟨c12, hc12, _⟩ := matchToks_dig minuteLocalIsoToks d.data hm 12 rfl
  have h10 : d.data[10]? = some 'T' := matchToks_lit minuteLocalIsoToks d.data hm 10 'T' rfl
  have h13 : d.data[13]? = some ':' := matchToks_lit minuteLocalIsoToks d.data hm 13 ':' rfl
  have hfull : isFullLocalIsoPattern d = false := by
    by_contra hf
    rw [Bool.not_eq_false] at hf
    have h1 := matchToks_length fullLocalIsoToks d.data hf
    rw [hlen] at h1
    exact absurd h1 (by decide)
  refine ⟨hlen, hne, ?_, ?_, hfull, ?_, ?_⟩
  · unfold endsWithChar
    rw [List.getLast?_eq_getElem?, hlen]
    rw [show (16 : Nat) - 1 = 15 from rfl, hc15]
    simp [isDigit_ne_Z hd15]
  · unfold offsetSuffixTest
    dsimp only
    rw [hlen]
    rw [show (16 : Nat) - 6 = 10 from rfl, h10]
    rw [show (16 : Nat) - 5 = 11 from rfl, hc11]
    rw [show (16 : Nat) - 4 = 12 from rfl, hc12]
    rw [show (16 : Nat) - 3 = 13 from rfl, h13]
    rw [show (16 : Nat) - 2 = 14 from rfl, hc14]
    rw [show (16 : Nat) - 1 = 15 from rfl, hc15]
    rfl
  · unfold endsWithChar
    rw [String.data_append]
    rw [show (":00" : String).data = [':', '0', '0'] from rfl]
    rw [List.getLast?_append]
    rfl
  · unfold offsetSuffixTest
    dsimp only
    rw [String.data_append]
    rw [show (":00" : String).data = [':', '0', '0'] from rfl]
    rw [List.length_append, hlen]
    rw [show ([':', '0', '0'] : List Char).length = 3 from rfl]
    rw [show (16 : Nat) + 3 - 6 = 13 from rfl]
    rw [show (16 : Nat) + 3 - 5 = 14 from rfl]
    rw [show (16 : Nat) + 3 - 4 = 15 from rfl]
    rw [show (16 : Nat) + 3 - 3 = 16 from rfl]
    rw [show (16 : Nat) + 3 - 2 = 17 from rfl]
    rw [show (16 : Nat) + 3 - 1 = 18 from rfl]
    rw [show (d.data ++ [':', '0', '0'])[13]? = d.data[13]? by
      rw [List.getElem?_append]; rw [if_pos (by rw [hlen]; decide)]]
    rw [show (d.data ++ [':', '0', '0'])[14]? = d.data[14]? by
      rw [List.getElem?_append]; rw [if_pos (by rw [hlen]; decide)]]
    rw [show (d.data ++ [':', '0', '0'])[15]? = d.data[15]? by
      rw [List.getElem?_append]; rw [if_pos (by rw [hlen]; decide)]]
    rw [show (d.data ++ [':', '0', '0'])[16]? = some ':' by
      rw [List.getElem?_append]; rw [if_neg (by rw [hlen]; decide), hlen]; decide]
    rw [show (d.data ++ [':', '0', '0'])[17]? = some '0' by
      rw [List.getElem?_append]; rw [if_neg (by rw [hlen]; decide), hlen]; decide]
    rw [show (d.data ++ [':', '0', '0'])[18]? = some '0' by
      rw [List.getElem?_append]; rw [if_neg (by rw [hlen]; decide), hlen]; decide]
    rw [h13, hc14, hc15]
    rfl

theorem formatLocal_not_zone (t : Int) :
    endsWithChar (formatLocalIso t) 'Z' = false ∧
    offsetSuffixTest (formatLocalIso t) = false := by
  constructor
  · have hl : (formatLocalIso t).data.getLast? =
        some (digitChar ((t.emod 86400).toNat % 60)) := rfl
    unfold endsWithChar
    rw [hl]
    simp [digitChar_ne_Z ((t.emod 86400).toNat % 60)]
  · rfl

/-- C8: datetime normalization of extraction output.  (1) A UTC instant is
converted through the request's timezone into the zone-less local wall-clock
string: `"2026-01-27T00:00:00Z"` with `"America/Toronto"` (offset −300
minutes at that instant, per the external zone database modelled by
`tzOffsetMinutes`) yields `"2026-01-26T19:00:00"`.  (2) A zone-less value
already in canonical `YYYY-MM-DDTHH:mm:ss` form is returned unchanged, and
(3) one missing only seconds is padded with `":00"`, in both cases without
conversion.  (4) Whenever a timezone is present, any stored value carries no
zone marker: it neither ends in `Z` nor in a `±HH:MM` offset. -/
theorem C8_datetime_normalization :
    (∀ (tzOffsetMinutes : String → Int → Int),
      tzOffsetMinutes "America/Toronto" 1769472000 = -300 →
      normalizeDatetimeToLocalIso tzOffsetMinutes (some "2026-01-27T00:00:00Z")
        (some "America/Toronto") = some "2026-01-26T19:00:00") ∧
    (∀ (tzOffsetMinutes : String → Int → Int) (d : String) (tz : Option String),
      strTruthy tz = true → isFullLocalIsoPattern d = true →
      normalizeDatetimeToLocalIso tzOffsetMinutes (some d) tz = some d) ∧
    (∀ (tzOffsetMinutes : String → Int → Int) (d : String) (tz : Option String),
      strTruthy tz = true → isMinuteLocalIsoPattern d = true →
      normalizeDatetimeToLocalIso tzOffsetMinutes (some d) tz = some (d ++ ":00")) ∧
    (∀ (tzOffsetMinutes : String → Int → Int) (d s : String) (tz : Option String),
      strTruthy tz = true →
      normalizeDatetimeToLocalIso tzOffsetMinutes (some d) tz = some s →
      endsWithChar s 'Z' = false ∧ offsetSuffixTest s = false) := by
  refine ⟨?_, ?_, ?_, ?_⟩
  · intro tzo htz
    have hp : parseInstant "2026-01-27T00:00:00Z" = some 1769472000 := by decide
    unfold normalizeDatetimeToLocalIso
    rw [if_neg (not_not_intro ⟨by decide, by decide⟩)]
    dsimp only
    simp only [Option.getD_some]
    rw [if_neg (show ¬ (endsWithChar "2026-01-27T00:00:00Z" 'Z' = false ∧
        offsetSuffixTest "2026-01-27T00:00:00Z" = false) by
      intro hand
      exact absurd hand.1 (by decide))]
    rw [hp]
    dsimp only
    rw [htz]
    decide
  · intro tzo d tz htz hfull
    obtain ⟨_, hne, hz, ho⟩ := full_pattern_facts d hfull
    have hstr : strTruthy (some d) = true := by
      show (if d = "" then false else true) = true
      rw [if_neg hne]
    unfold normalizeDatetimeToLocalIso
    rw [if_neg (not_not_intro ⟨hstr, htz⟩)]
    dsimp only
    simp only [Option.getD_some]
    rw [if_pos ⟨hz, ho⟩]
    rw [if_pos hfull]
  · intro tzo d tz htz hmin
    obtain ⟨_, hne, hz, ho, hfullf, _, _⟩ := minute_pattern_facts d hmin
    have hstr : strTruthy (some d) = true := by
      show (if d = "" then false else true) = true
      rw [if_neg hne]
    unfold normalizeDatetimeToLocalIso
    rw [if_neg (not_not_intro ⟨hstr, htz⟩)]
    dsimp only
    simp only [Option.getD_some]
    rw [if_pos ⟨hz, ho⟩]
    rw [if_neg (show ¬ (isFullLocalIsoPattern d = true) by
      rw [hfullf]; exact Bool.false_ne_true)]
    rw [if_pos hmin]
  · intro tzo d s tz htz hres
    by_cases hne : d = ""
    · subst hne
      unfold normalizeDatetimeToLocalIso at hres
      rw [if_pos (show ¬ (strTruthy (some "") = true ∧ strTruthy tz = true) by
        intro hand; exact absurd hand.1 (by decide))] at hres
      rw [if_neg (by decide)] at hres
      exact Option.noConfusion hres
    · have hstr : strTruthy (some d) = true := by
        show (if d = "" then false else true) = true
        rw [if_neg hne]
      unfold normalizeDatetimeToLocalIso at hres
      rw [if_neg (not_not_intro ⟨hstr, htz⟩)] at hres
      dsimp only at hres
      simp only [Option.getD_some] at hres
      by_cases hz : endsWithChar d 'Z' = false
      · by_cases ho : offsetSuffixTest d = false
        · rw [if_pos ⟨hz, ho⟩] at hres
          by_cases hfull : isFullLocalIsoPattern d = true
          · rw [if_pos hfull] at hres
            obtain rfl : d = s := Option.some.inj hres
            exact ⟨hz, ho⟩
          · rw [if_neg hfull] at hres
            by_cases hmin : isMinuteLocalIsoPattern d = true
            · rw [if_pos hmin] at hres
              obtain ⟨_, _, _, _, _, hz', ho'⟩ := minute_pattern_facts d hmin
              obtain rfl : d ++ ":00" = s := Option.some.inj hres
              exact ⟨hz', ho'⟩
            · rw [if_neg hmin] at hres
              obtain rfl : d = s := Option.some.inj hres
              exact ⟨hz, ho⟩
        · rw [if_neg (show ¬ (endsWithChar d 'Z' = false ∧ offsetSuffixTest d = false) by
            intro hand; exact ho hand.2)] at hres
          cases hpi : parseInstant d with
          | none =>
            rw [hpi] at hres
            exact Option.noConfusion hres
          | some ep =>
            rw [hpi] at hres
            dsimp only at hres
            obtain rfl : formatLocalIso (ep + tzo (tz.getD "") ep * 60) = s :=
              Option.some.inj hres
            exact formatLocal_not_zone _
      · rw [if_neg (show ¬ (endsWithChar d 'Z' = false ∧ offsetSuffixTest d = false) by
          intro hand; exact hz hand.1)] at hres
        cases hpi : parseInstant d with
        | none =>
          rw [hpi] at hres
          exact Option.noConfusion hres
        | some ep =>
          rw [hpi] at hres
          dsimp only at hres
          obtain rfl : formatLocalIso (ep + tzo (tz.getD "") ep * 60) = s :=
            Option.some.inj hres
          exact formatLocal_not_zone _

/-- C8 witness: the documented example conversion with the standard Toronto
winter offset, the identity on an already canonical value, and the seconds
padding, each at concrete inputs. -/
theorem C8_datetime_normalization_witness :
    normalizeDatetimeToLocalIso (fun _ _ => -300) (some "2026-01-27T00:00:00Z")
      (some "America/Toronto") = some "2026-01-26T19:00:00" ∧
    normalizeDatetimeToLocalIso (fun _ _ => -300) (some "2026-01-28T19:00:00")
      (some "America/Toronto") = some "2026-01-28T19:00:00" ∧
    normalizeDatetimeToLocalIso (fun _ _ => -300) (some "2026-01-28T19:00")
      (some "America/Toronto") = some "2026-01-28T19:00:00" := by
  refine ⟨C8_datetime_normalization.1 (fun _ _ => -300) rfl, ?_, ?_⟩
  · exact C8_datetime_normalization.2.1 (fun _ _ => -300) "2026-01-28T19:00:00"
      (some "America/Toronto") (by decide) (by decide)
  · exact C8_datetime_normalization.2.2.1 (fun _ _ => -300) "2026-01-28T19:00"
      (some "America/Toronto") (by decide) (by decide)

end DigIn
